import Mathlib

namespace TfiLang

/-- Expressions of the TFI language, from src/ast.rs. -/
inductive Expression where
  | Number (n : Int)
  | Identifier (name : String)
  | String (s : String)
  | BinaryOp (left : Expression) (op : String) (right : Expression)
deriving DecidableEq, Repr

/-- Statements of the TFI language, from src/ast.rs. -/
inductive Statement where
  | Print (args : List Expression)
  | Const (name : String) (value : Expression)
  | Let (name : String) (value : Expression)
  | If (cond : Expression) (thenB : List Statement) (elseB : Option (List Statement))
  | While (cond : Expression) (body : List Statement)
  | For (init : Statement) (cond : Expression) (update : Expression) (body : List Statement)
deriving Repr

/-- JavaScript text of an expression, from generate_expression in src/generator.rs:
every BinaryOp is parenthesized. -/
def generate_expression : Expression → String
  | .Number n => toString n
  | .Identifier id => id
  | .String s => "\"" ++ s ++ "\""
  | .BinaryOp left op right =>
      "(" ++ generate_expression left ++ " " ++ op ++ " " ++ generate_expression right ++ ")"

mutual

/-- JavaScript text of a statement, from generate_statement in src/generator.rs. -/
def generate_statement : Statement → String
  | .Print expressions =>
      "console.log(" ++ String.intercalate ", " (expressions.map generate_expression) ++ ");"
  | .Const id expr => "const " ++ id ++ " = " ++ generate_expression expr ++ ";"
  | .Let id expr => "let " ++ id ++ " = " ++ generate_expression expr ++ ";"
  | .If cond then_block none =>
      "if (" ++ generate_expression cond ++ ") \x7b\n" ++
        String.intercalate "\n" (generate_block then_block) ++ "\n\x7d"
  | .If cond then_block (some else_block) =>
      "if (" ++ generate_expression cond ++ ") \x7b\n" ++
        String.intercalate "\n" (generate_block then_block) ++ "\n\x7d" ++
        (" else \x7b\n" ++ String.intercalate "\n" (generate_block else_block) ++ "\n\x7d")
  | .While cond block =>
      "while (" ++ generate_expression cond ++ ") \x7b\n" ++
        String.intercalate "\n" (generate_block block) ++ "\n\x7d"
  | .For init cond update block =>
      "for (" ++ (generate_statement init).dropRightWhile (· = ';') ++ "; " ++
        generate_expression cond ++ "; " ++ generate_expression update ++ ") \x7b\n" ++
        String.intercalate "\n" (generate_block block) ++ "\n\x7d"

/-- The list of generated lines of a block, one per statement. -/
def generate_block : List Statement → List String
  | [] => []
  | s :: rest => generate_statement s :: generate_block rest

end

/-- The generated JavaScript program, from generate_program in src/generator.rs. -/
def generate_program (statements : List Statement) : String :=
  String.intercalate "\n" (generate_block statements)

/-- Validation error values, from the ValidationError enum in src/validator.rs. -/
inductive ValidationError where
  | EmptyPrintStatement (line : Nat)
  | EmptyIdentifier (line : Nat) (stmt_type : String)
  | EmptyBlock (line : Nat) (stmt_type : String)
  | InvalidExpression (line : Nat) (msg : String)
  | DuplicateVariable (name : String) (line : Nat)
  | UndefinedVariable (name : String) (line : Nat)
deriving DecidableEq, Repr

/-- Declaration kinds, from the DeclarationType enum in src/validator.rs. -/
inductive DeclarationType where
  | Const
  | Let
deriving DecidableEq, Repr

/-- Membership test of a name in a set of names; models HashSet contains. -/
def setMem : List String → String → Bool
  | [], _ => false
  | k :: rest, name => if k = name then true else setMem rest name

/-- Insertion of a name into a set of names; models HashSet insert. -/
def setInsert : List String → String → List String
  | [], name => [name]
  | k :: rest, name => if k = name then k :: rest else k :: setInsert rest name

/-- Lookup of a key in a name-keyed map; models HashMap get. -/
def mapGet {α : Type} : List (String × α) → String → Option α
  | [], _ => none
  | (k, v) :: rest, name => if k = name then some v else mapGet rest name

/-- Insertion into a name-keyed map, replacing any previous binding of the key;
models HashMap insert. -/
def mapInsert {α : Type} : List (String × α) → String → α → List (String × α)
  | [], name, v => [(name, v)]
  | (k, v0) :: rest, name, v =>
      if k = name then (name, v) :: rest else (k, v0) :: mapInsert rest name v

/-- Scope state of the validator, from ValidationContext in src/validator.rs: the set of
declared names, the declaring statement ordinal of each name, and the declaration kind
of each name. -/
structure ValidationContext where
  declared_vars : List String
  var_declarations : List (String × Nat)
  var_types : List (String × DeclarationType)
deriving Repr

/-- The fresh empty context, from ValidationContext::new. -/
def ValidationContext.new : ValidationContext := ⟨[], [], []⟩

/-- Declaring a variable in a context, from ValidationContext::declare_variable in
src/validator.rs lines 87 to 107: an already-declared name is rejected with
DuplicateVariable carrying the original declaration ordinal, except that a name
declared const may be redeclared with let kind. -/
def ValidationContext.declare_variable (ctx : ValidationContext) (name : String)
    (line : Nat) (decl_type : DeclarationType) : Except ValidationError ValidationContext :=
  if setMem ctx.declared_vars name then
    let original_line := (mapGet ctx.var_declarations name).getD 0
    let original_type := (mapGet ctx.var_types name).getD DeclarationType.Let
    if original_type = DeclarationType.Const ∧ decl_type = DeclarationType.Let then
      Except.ok { ctx with
        var_declarations := mapInsert ctx.var_declarations name line,
        var_types := mapInsert ctx.var_types name decl_type }
    else
      Except.error (ValidationError.DuplicateVariable name original_line)
  else
    Except.ok
      { declared_vars := setInsert ctx.declared_vars name,
        var_declarations := mapInsert ctx.var_declarations name line,
        var_types := mapInsert ctx.var_types name decl_type }

/-- Whether a name is declared, from ValidationContext::is_variable_declared. -/
def ValidationContext.is_variable_declared (ctx : ValidationContext) (name : String) : Bool :=
  setMem ctx.declared_vars name

/-- Validation of one expression against a context, from validate_expression in
src/validator.rs: literals are valid, identifiers must be declared, binary operations
validate both operands and then require a known operator string. -/
def validate_expression : Expression → Nat → ValidationContext → Except ValidationError Unit
  | .Number _, _, _ => Except.ok ()
  | .String _, _, _ => Except.ok ()
  | .Identifier name, line, ctx =>
      if ctx.is_variable_declared name then Except.ok ()
      else Except.error (ValidationError.UndefinedVariable name line)
  | .BinaryOp left op right, line, ctx =>
      match validate_expression left line ctx with
      | .error e => .error e
      | .ok () =>
        match validate_expression right line ctx with
        | .error e => .error e
        | .ok () =>
          match op with
          | "+" | "-" | "*" | "/" | ">" | "<" | ">=" | "<=" | "==" | "!=" => Except.ok ()
          | _ => Except.error (ValidationError.InvalidExpression line ("Unknown operator: " ++ op))

/-- First validation error among a list of expressions, modelling the argument loop of
the Print arm of validate_statement. -/
def validate_expressions : List Expression → Nat → ValidationContext → Option ValidationError
  | [], _, _ => none
  | e :: rest, line, ctx =>
      match validate_expression e line ctx with
      | .error err => some err
      | .ok () => validate_expressions rest line ctx

mutual

/-- Validation of one statement, from validate_statement in src/validator.rs. The Rust
function mutates its context argument; here the possibly-updated context is returned
together with the first error, if any: declarations extend the context, nested blocks
of If, While and For validate against an independent copy whose changes are dropped,
and the init of a For is validated against the outer context itself. -/
def validate_statement : Statement → Nat → ValidationContext →
    ValidationContext × Option ValidationError
  | .Print expressions, line, ctx =>
      if expressions.isEmpty then (ctx, some (ValidationError.EmptyPrintStatement line))
      else (ctx, validate_expressions expressions line ctx)
  | .Const name expr, line, ctx =>
      if name = "" then (ctx, some (ValidationError.EmptyIdentifier line "rrr"))
      else
        match ctx.declare_variable name line DeclarationType.Const with
        | .error e => (ctx, some e)
        | .ok ctx1 =>
          match validate_expression expr line ctx1 with
          | .error e => (ctx1, some e)
          | .ok () => (ctx1, none)
  | .Let name expr, line, ctx =>
      if name = "" then (ctx, some (ValidationError.EmptyIdentifier line "pushpa"))
      else
        match ctx.declare_variable name line DeclarationType.Let with
        | .error e => (ctx, some e)
        | .ok ctx1 =>
          match validate_expression expr line ctx1 with
          | .error e => (ctx1, some e)
          | .ok () => (ctx1, none)
  | .If cond then_block else_block, line, ctx =>
      match validate_expression cond line ctx with
      | .error e => (ctx, some e)
      | .ok () =>
        if then_block.isEmpty then (ctx, some (ValidationError.EmptyBlock line "magadheera"))
        else
          match (validate_block then_block line ctx).2 with
          | some e => (ctx, some e)
          | none =>
            match else_block with
            | none => (ctx, none)
            | some eb =>
              if eb.isEmpty then (ctx, some (ValidationError.EmptyBlock line "karthikeya"))
              else (ctx, (validate_block eb line ctx).2)
  | .While cond block, line, ctx =>
      match validate_expression cond line ctx with
      | .error e => (ctx, some e)
      | .ok () =>
        if block.isEmpty then (ctx, some (ValidationError.EmptyBlock line "pokiri"))
        else (ctx, (validate_block block line ctx).2)
  | .For init cond update block, line, ctx =>
      match validate_statement init line ctx with
      | (ctx1, some e) => (ctx1, some e)
      | (ctx1, none) =>
        match validate_expression cond line ctx1 with
        | .error e => (ctx1, some e)
        | .ok () =>
          match validate_expression update line ctx1 with
          | .error e => (ctx1, some e)
          | .ok () =>
            if block.isEmpty then (ctx1, some (ValidationError.EmptyBlock line "eega"))
            else (ctx1, (validate_block block line ctx1).2)

/-- Validation of the statements of one block in order, threading the context and
stopping at the first error, modelling the statement loops of validate_statement and
validate_program. -/
def validate_block : List Statement → Nat → ValidationContext →
    ValidationContext × Option ValidationError
  | [], _, ctx => (ctx, none)
  | s :: rest, line, ctx =>
      match validate_statement s line ctx with
      | (ctx1, none) => validate_block rest line ctx1
      | (ctx1, some e) => (ctx1, some e)

end

/-- The top-level validation loop, from validate_program in src/validator.rs: statement
number i is validated at ordinal i + 1, and the first error aborts. -/
def validate_program_go : List Statement → Nat → ValidationContext → Except ValidationError Unit
  | [], _, _ => Except.ok ()
  | s :: rest, i, ctx =>
      match validate_statement s i ctx with
      | (ctx1, none) => validate_program_go rest (i + 1) ctx1
      | (_, some e) => Except.error e

/-- Validation of a complete program, from validate_program in src/validator.rs. -/
def validate_program (statements : List Statement) : Except ValidationError Unit :=
  validate_program_go statements 1 ValidationContext.new

/-- The detailed validation loop, from validate_program_detailed in src/validator.rs:
each top-level statement is validated in turn and every error is collected, the
context continuing across failing statements. -/
def validate_program_detailed_go : List Statement → Nat → ValidationContext →
    List ValidationError
  | [], _, _ => []
  | s :: rest, i, ctx =>
      match validate_statement s i ctx with
      | (ctx1, none) => validate_program_detailed_go rest (i + 1) ctx1
      | (ctx1, some e) => e :: validate_program_detailed_go rest (i + 1) ctx1

/-- Validation of a complete program with detailed error reporting, from
validate_program_detailed in src/validator.rs. -/
def validate_program_detailed (statements : List Statement) :
    Except (List ValidationError) Unit :=
  let errors := validate_program_detailed_go statements 1 ValidationContext.new
  if errors.isEmpty then Except.ok () else Except.error errors

/-- One pest pair inside an expression rule, as consumed by the loop of
parse_expression in src/parser.rs lines 340 to 369: either an operator pair, carrying
its source text, or a pair that parse_term lowers to an expression. -/
inductive ExprPair where
  | operatorP (op : String)
  | termP (e : Expression)
deriving DecidableEq, Repr

/-- The lowering loop of parse_expression in src/parser.rs lines 340 to 369, given the
already-lowered first term: while another pair remains it must be an operator followed
by a term, and the accumulated expression becomes the left operand of a new BinaryOp. -/
def parse_expression_chain : Expression → List ExprPair → Except String Expression
  | left, [] => Except.ok left
  | left, .operatorP op :: rest =>
      match rest with
      | .termP right :: rest1 =>
          parse_expression_chain (Expression.BinaryOp left op right) rest1
      | _ => Except.error "Expected right operand"
  | _, .termP _ :: _ => Except.error "Unexpected pair in expression"

/-- The pair sequence of a well-formed operator chain: after the first term, an
operator pair followed by a term pair for each link. -/
def interleave_ops : List (String × Expression) → List ExprPair
  | [] => []
  | (op, t) :: rest => ExprPair.operatorP op :: ExprPair.termP t :: interleave_ops rest

/-- Parse failures surfaced by parse_program in src/parser.rs: either an error of the
pest engine, or the custom error built by new_from_span for a program with no
statements. -/
inductive ParseError where
  | engine (msg : String)
  | custom (msg : String)
deriving DecidableEq, Repr

/-- Modelled from the spec: the pest grammar file grammar.pest and the pest engine are
not among the sources, so the engine run plus per-statement lowering inside
parse_program is abstracted as its outcome: an engine error, or the list of lowered
statements. -/
inductive PestResult where
  | err (msg : String)
  | ok (statements : List Statement)

/-- The result shaping of parse_program in src/parser.rs lines 20 to 64, over the
abstracted engine outcome: an engine failure propagates, and a successful parse that
yielded no statements is turned into the distinct custom error. -/
def parse_program : PestResult → Except ParseError (List Statement)
  | .err m => Except.error (ParseError.engine m)
  | .ok statements =>
      if statements.isEmpty then
        Except.error (ParseError.custom "No valid statements found. Check your syntax.")
      else
        Except.ok statements

/-- Compilation result record, from CompilationResult in src/compiler.rs. -/
structure CompilationResult where
  js_code : String
  warnings : List String
  statement_count : Nat
deriving Repr

/-- A fresh result with no warnings, from CompilationResult::new. -/
def CompilationResult.new (js_code : String) (statement_count : Nat) : CompilationResult :=
  ⟨js_code, [], statement_count⟩

/-- Appending one warning, from CompilationResult::add_warning. -/
def CompilationResult.add_warning (r : CompilationResult) (w : String) : CompilationResult :=
  { r with warnings := r.warnings ++ [w] }

/-- Compilation failures, from CompilationError in src/compiler.rs, keeping the
structured payload of the two arms compile_with_details can produce; the display
formatting of messages is not modelled. -/
inductive CompilationError where
  | General (parse_err : ParseError)
  | ValidationFail (err : ValidationError)
deriving DecidableEq, Repr

/-- The warning of one top-level statement at 0-based index i, from the match arms of
add_compilation_warnings in src/compiler.rs lines 160 to 190: a Print with more than 5
arguments or a While or For body with more than 10 statements warns once, every other
statement never warns. -/
def warning_for (i : Nat) : Statement → Option String
  | .Print expressions =>
      if expressions.length > 5 then
        some ("Statement " ++ toString (i + 1) ++ ": Print statement has " ++
          toString expressions.length ++ " arguments, consider breaking it up")
      else none
  | .While _ block =>
      if block.length > 10 then
        some ("Statement " ++ toString (i + 1) ++ ": While loop has " ++
          toString block.length ++ " statements, consider refactoring")
      else none
  | .For _ _ _ block =>
      if block.length > 10 then
        some ("Statement " ++ toString (i + 1) ++ ": For loop has " ++
          toString block.length ++ " statements, consider refactoring")
      else none
  | _ => none

/-- The enumeration loop of add_compilation_warnings in src/compiler.rs lines 160 to
190, pushing the warning of each top-level statement in order; the loop does not
descend into nested blocks. -/
def add_compilation_warnings_go : List Statement → Nat → CompilationResult →
    CompilationResult
  | [], _, r => r
  | s :: rest, i, r =>
      match warning_for i s with
      | some w => add_compilation_warnings_go rest (i + 1) (r.add_warning w)
      | none => add_compilation_warnings_go rest (i + 1) r

/-- Warning accumulation over the top-level statements, from add_compilation_warnings
in src/compiler.rs. -/
def add_compilation_warnings (statements : List Statement) (r : CompilationResult) :
    CompilationResult :=
  add_compilation_warnings_go statements 0 r

/-- The warning strings of a program in order, one per qualifying top-level statement. -/
def warnings_from : List Statement → Nat → List String
  | [], _ => []
  | s :: rest, i =>
      match warning_for i s with
      | some w => w :: warnings_from rest (i + 1)
      | none => warnings_from rest (i + 1)

/-- The detailed compilation pipeline, from compile_with_details in src/compiler.rs
lines 128 to 157, over the abstracted parse outcome: parse, validate, generate, then
accumulate advisory warnings on the successful result. -/
def compile_with_details (source : PestResult) : Except CompilationError CompilationResult :=
  match parse_program source with
  | .error e => Except.error (CompilationError.General e)
  | .ok ast =>
    match validate_program ast with
    | .error e => Except.error (CompilationError.ValidationFail e)
    | .ok () =>
      let js_code := generate_program ast
      let result := CompilationResult.new js_code ast.length
      Except.ok (add_compilation_warnings ast result)

/-- The simple compilation pipeline, from compile in src/compiler.rs. -/
def compile (source : PestResult) : Except CompilationError String :=
  match compile_with_details source with
  | .error e => Except.error e
  | .ok result => Except.ok result.js_code

theorem validate_go_ok_iff_detailed_nil (stmts : List Statement) :
    ∀ (i : Nat) (ctx : ValidationContext),
    validate_program_go stmts i ctx = Except.ok () ↔
      validate_program_detailed_go stmts i ctx = [] := by
  induction stmts with
  | nil => intro i ctx; simp [validate_program_go, validate_program_detailed_go]
  | cons s rest ih =>
    intro i ctx
    rcases h : validate_statement s i ctx with ⟨ctx1, oe⟩
    cases oe with
    | none =>
      simpa [validate_program_go, validate_program_detailed_go, h] using ih (i + 1) ctx1
    | some e =>
      simp [validate_program_go, validate_program_detailed_go, h]

theorem validate_go_error_heads_detailed (stmts : List Statement) :
    ∀ (i : Nat) (ctx : ValidationContext) (e : ValidationError),
    validate_program_go stmts i ctx = Except.error e →
    ∃ rest, validate_program_detailed_go stmts i ctx = e :: rest := by
  induction stmts with
  | nil => intro i ctx e h; simp [validate_program_go] at h
  | cons s rest ih =>
    intro i ctx e h
    rcases hs : validate_statement s i ctx with ⟨ctx1, oe⟩
    cases oe with
    | none =>
      simp only [validate_program_go, hs] at h
      obtain ⟨r, hr⟩ := ih (i + 1) ctx1 e h
      exact ⟨r, by simp [validate_program_detailed_go, hs, hr]⟩
    | some e1 =>
      simp only [validate_program_go, hs, Except.error.injEq] at h
      subst h
      exact ⟨validate_program_detailed_go rest (i + 1) ctx1,
        by simp [validate_program_detailed_go, hs]⟩

theorem add_warnings_go_spec (stmts : List Statement) :
    ∀ (i : Nat) (r : CompilationResult),
    add_compilation_warnings_go stmts i r
      = { r with warnings := r.warnings ++ warnings_from stmts i } := by
  induction stmts with
  | nil => intro i r; simp [add_compilation_warnings_go, warnings_from]
  | cons s rest ih =>
    intro i r
    cases h : warning_for i s with
    | none => simp [add_compilation_warnings_go, warnings_from, h, ih]
    | some w =>
      simp [add_compilation_warnings_go, warnings_from, h, ih,
        CompilationResult.add_warning]

/-- C1: the lowering loop of parse_expression groups every chain of terms joined by
binary operators strictly left-to-right with a single uniform precedence, so the
resulting AST is left-nested: a chain standing for a + b * c lowers to
BinaryOp(BinaryOp(a, +, b), *, c), not the standard-precedence grouping. -/
theorem parser_left_assoc_chaining :
    (∀ (first : Expression) (pairs : List (String × Expression)),
      parse_expression_chain first (interleave_ops pairs)
        = Except.ok (pairs.foldl (fun l p => Expression.BinaryOp l p.1 p.2) first)) ∧
    (∀ (a b c : Expression) (op1 op2 : String),
      parse_expression_chain a
          [ExprPair.operatorP op1, ExprPair.termP b, ExprPair.operatorP op2, ExprPair.termP c]
        = Except.ok (Expression.BinaryOp (Expression.BinaryOp a op1 b) op2 c)) := by
  constructor
  · intro first pairs
    induction pairs generalizing first with
    | nil => rfl
    | cons p rest ih =>
      rcases p with ⟨op, t⟩
      simpa [interleave_ops, parse_expression_chain] using
        ih (Expression.BinaryOp first op t)
  · intro a b c op1 op2
    rfl

/-- C2: in one scope, a const declaration immediately followed by another const
declaration of the same name fails with DuplicateVariable, a const declaration
followed by a let declaration of the same name passes (shadow-widening), and a let
declaration followed by a const declaration of the same name fails with
DuplicateVariable. -/
theorem const_let_shadowing (n : String) (v1 v2 : Int) (h : n ≠ "") :
    validate_program [Statement.Const n (Expression.Number v1),
        Statement.Const n (Expression.Number v2)]
      = Except.error (ValidationError.DuplicateVariable n 1) ∧
    validate_program [Statement.Const n (Expression.Number v1),
        Statement.Let n (Expression.Number v2)]
      = Except.ok () ∧
    validate_program [Statement.Let n (Expression.Number v1),
        Statement.Const n (Expression.Number v2)]
      = Except.error (ValidationError.DuplicateVariable n 1) := by
  refine ⟨?_, ?_, ?_⟩ <;>
    simp [validate_program, validate_program_go, validate_statement, validate_expression,
      ValidationContext.declare_variable, ValidationContext.new, ValidationContext.declared_vars,
      setMem, setInsert, mapGet, mapInsert, h]

theorem const_let_shadowing_witness :
    (("x" : String) ≠ "") ∧
    validate_program [Statement.Const "x" (Expression.Number 1),
        Statement.Const "x" (Expression.Number 2)]
      = Except.error (ValidationError.DuplicateVariable "x" 1) ∧
    validate_program [Statement.Const "x" (Expression.Number 1),
        Statement.Let "x" (Expression.Number 2)]
      = Except.ok () ∧
    validate_program [Statement.Let "x" (Expression.Number 1),
        Statement.Const "x" (Expression.Number 2)]
      = Except.error (ValidationError.DuplicateVariable "x" 1) :=
  ⟨by decide, const_let_shadowing "x" 1 2 (by decide)⟩

/-- C3: expression generation fully parenthesizes every BinaryOp at every nesting
level, regardless of operator, rendering it as the parenthesized left text, operator
and right text; in particular the left-nested sum-then-product tree renders as
((1 + 2) * 3). -/
theorem generator_fully_parenthesizes :
    (∀ (l r : Expression) (op : String),
      generate_expression (Expression.BinaryOp l op r)
        = "(" ++ generate_expression l ++ " " ++ op ++ " " ++ generate_expression r ++ ")") ∧
    generate_expression (Expression.BinaryOp
        (Expression.BinaryOp (Expression.Number 1) "+" (Expression.Number 2)) "*"
        (Expression.Number 3)) = "((1 + 2) * 3)" :=
  ⟨fun _ _ _ => rfl, rfl⟩

/-- C4: an identifier reference is rejected with UndefinedVariable whenever its name is
not declared in the context it is validated against; since each nested block validates
against an independent copy of the enclosing context, a reference inside an else-block
to a name declared only inside the sibling then-block fails with UndefinedVariable,
while a reference to an enclosing-scope name succeeds. -/
theorem sibling_scope_isolation :
    (∀ (name : String) (line : Nat) (ctx : ValidationContext),
      ctx.is_variable_declared name = false →
      validate_expression (Expression.Identifier name) line ctx
        = Except.error (ValidationError.UndefinedVariable name line)) ∧
    (∀ n : String, n ≠ "" →
      validate_program [Statement.If (Expression.Number 1)
          [Statement.Let n (Expression.Number 0)]
          (some [Statement.Print [Expression.Identifier n]])]
        = Except.error (ValidationError.UndefinedVariable n 1)) ∧
    (∀ n : String, n ≠ "" →
      validate_program [Statement.Let n (Expression.Number 0),
          Statement.If (Expression.Number 1)
            [Statement.Print [Expression.Identifier n]] none]
        = Except.ok ()) := by
  refine ⟨?_, ?_, ?_⟩
  · intro name line ctx h
    simp [validate_expression, h]
  · intro n h
    simp [validate_program, validate_program_go, validate_statement, validate_block,
      validate_expressions, validate_expression, ValidationContext.declare_variable,
      ValidationContext.is_variable_declared, ValidationContext.new,
      setMem, setInsert, mapGet, mapInsert, h]
  · intro n h
    simp [validate_program, validate_program_go, validate_statement, validate_block,
      validate_expressions, validate_expression, ValidationContext.declare_variable,
      ValidationContext.is_variable_declared, ValidationContext.new,
      setMem, setInsert, mapGet, mapInsert, h]

theorem sibling_scope_isolation_witness :
    ValidationContext.is_variable_declared ValidationContext.new "q" = false ∧
    validate_expression (Expression.Identifier "q") 3 ValidationContext.new
      = Except.error (ValidationError.UndefinedVariable "q" 3) ∧
    (("v" : String) ≠ "") ∧
    validate_program [Statement.If (Expression.Number 1)
        [Statement.Let "v" (Expression.Number 0)]
        (some [Statement.Print [Expression.Identifier "v"]])]
      = Except.error (ValidationError.UndefinedVariable "v" 1) ∧
    validate_program [Statement.Let "v" (Expression.Number 0),
        Statement.If (Expression.Number 1)
          [Statement.Print [Expression.Identifier "v"]] none]
      = Except.ok () :=
  ⟨rfl, sibling_scope_isolation.1 "q" 3 ValidationContext.new rfl, by decide,
    sibling_scope_isolation.2.1 "v" (by decide),
    sibling_scope_isolation.2.2 "v" (by decide)⟩

/-- C5: parsing never succeeds with an empty program: every successful parse carries at
least one statement, an engine run that produced zero statements is turned into the
distinct no-valid-statements custom error, and an engine failure (as on empty input
whose grammar run fails) is also an error. -/
theorem parse_rejects_empty_program :
    (∀ (r : PestResult) (s : List Statement), parse_program r = Except.ok s → s ≠ []) ∧
    parse_program (PestResult.ok [])
      = Except.error (ParseError.custom "No valid statements found. Check your syntax.") ∧
    (∀ m : String, parse_program (PestResult.err m) = Except.error (ParseError.engine m)) := by
  refine ⟨?_, rfl, fun m => rfl⟩
  intro r s h
  cases r with
  | err m => simp [parse_program] at h
  | ok statements =>
    by_cases he : statements.isEmpty
    · simp [parse_program, he] at h
    · simp [parse_program, he] at h
      subst h
      simpa [List.isEmpty_iff] using he

theorem parse_rejects_empty_program_witness :
    parse_program (PestResult.ok [Statement.Print [Expression.Number 1]])
      = Except.ok [Statement.Print [Expression.Number 1]] ∧
    [Statement.Print [Expression.Number 1]] ≠ ([] : List Statement) :=
  ⟨rfl, parse_rejects_empty_program.1
    (PestResult.ok [Statement.Print [Expression.Number 1]])
    [Statement.Print [Expression.Number 1]] rfl⟩

/-- C6: detailed validation does not stop at the first failure: it returns ok exactly
when plain validation does, on failure its list starts with the first failing
statement's error, and it keeps collecting the errors of every later failing top-level
statement, as on the four-statement program with three failing statements. -/
theorem validate_detailed_collects_all (stmts : List Statement) :
    (validate_program_detailed stmts = Except.ok () ↔
      validate_program stmts = Except.ok ()) ∧
    (∀ e, validate_program stmts = Except.error e →
      ∃ rest, validate_program_detailed stmts = Except.error (e :: rest)) ∧
    (∀ (s : Statement) (rest : List Statement) (i : Nat) (ctx : ValidationContext),
      validate_program_detailed_go (s :: rest) i ctx
        = (match (validate_statement s i ctx).2 with
            | some e => [e]
            | none => []) ++
          validate_program_detailed_go rest (i + 1) (validate_statement s i ctx).1) ∧
    validate_program_detailed
        [Statement.Print [], Statement.Const "x" (Expression.Number 1),
         Statement.Const "x" (Expression.Number 2),
         Statement.Print [Expression.Identifier "undefined"]]
      = Except.error [ValidationError.EmptyPrintStatement 1,
          ValidationError.DuplicateVariable "x" 2,
          ValidationError.UndefinedVariable "undefined" 4] := by
  refine ⟨?_, ?_, ?_, rfl⟩
  · rw [validate_program_detailed, validate_program,
      validate_go_ok_iff_detailed_nil stmts 1 ValidationContext.new]
    constructor
    · intro h
      by_cases he : (validate_program_detailed_go stmts 1 ValidationContext.new).isEmpty
      · simpa [List.isEmpty_iff] using he
      · simp [he] at h
    · intro h
      simp [h]
  · intro e h
    obtain ⟨rest, hr⟩ :=
      validate_go_error_heads_detailed stmts 1 ValidationContext.new e h
    exact ⟨rest, by simp [validate_program_detailed, hr]⟩
  · intro s rest i ctx
    rcases hs : validate_statement s i ctx with ⟨ctx1, oe⟩
    cases oe with
    | none => simp [validate_program_detailed_go, hs]
    | some e => simp [validate_program_detailed_go, hs]

theorem validate_detailed_collects_all_witness :
    validate_program [Statement.Print []]
      = Except.error (ValidationError.EmptyPrintStatement 1) ∧
    ∃ rest, validate_program_detailed [Statement.Print []]
      = Except.error (ValidationError.EmptyPrintStatement 1 :: rest) :=
  ⟨rfl, (validate_detailed_collects_all [Statement.Print []]).2.1
    (ValidationError.EmptyPrintStatement 1) rfl⟩

/-- C7 counterexample: the warning scan of compile_with_details does not descend into
nested blocks, so a Print statement with 7 arguments sitting inside an If body
produces no warning at all, although the claim requires exactly one warning for every
Print with more than 5 arguments. -/
theorem nested_print_no_warning :
    Except.map CompilationResult.warnings (compile_with_details (PestResult.ok
      [Statement.If (Expression.Number 1)
        [Statement.Print [Expression.Number 1, Expression.Number 2, Expression.Number 3,
          Expression.Number 4, Expression.Number 5, Expression.Number 6,
          Expression.Number 7]]
        none])) = Except.ok [] := rfl

/-- C7 as amended: after successful generation, compile_with_details scans the
top-level statements to accumulate advisory warnings: every top-level Print with
more than 5 arguments and every top-level While or For body with more than 10
statements produces exactly one warning string (statements nested inside blocks are
not scanned), and warnings never cause compilation to fail: the result still carries
the generated text. -/
theorem top_level_warnings_advisory (ast : List Statement)
    (hv : validate_program ast = Except.ok ()) (hne : ast ≠ []) :
    compile_with_details (PestResult.ok ast)
      = Except.ok ⟨generate_program ast, warnings_from ast 0, ast.length⟩ ∧
    (∀ (i : Nat) (args : List Expression),
      (warning_for i (Statement.Print args)).isSome ↔ 5 < args.length) ∧
    (∀ (i : Nat) (cond : Expression) (body : List Statement),
      (warning_for i (Statement.While cond body)).isSome ↔ 10 < body.length) ∧
    (∀ (i : Nat) (init : Statement) (cond update : Expression) (body : List Statement),
      (warning_for i (Statement.For init cond update body)).isSome ↔ 10 < body.length) ∧
    (∀ (i : Nat) (name : String) (v : Expression),
      warning_for i (Statement.Const name v) = none ∧
      warning_for i (Statement.Let name v) = none) := by
  refine ⟨?_, ?_, ?_, ?_, ?_⟩
  · simp [compile_with_details, parse_program, List.isEmpty_iff, hne, hv,
      add_compilation_warnings, add_warnings_go_spec, CompilationResult.new]
  · intro i args
    by_cases h : 5 < args.length <;> simp [warning_for, h]
  · intro i cond body
    by_cases h : 10 < body.length <;> simp [warning_for, h]
  · intro i init cond update body
    by_cases h : 10 < body.length <;> simp [warning_for, h]
  · intro i name v
    exact ⟨rfl, rfl⟩

theorem top_level_warnings_advisory_witness :
    validate_program [Statement.Print [Expression.Number 1, Expression.Number 2,
        Expression.Number 3, Expression.Number 4, Expression.Number 5,
        Expression.Number 6, Expression.Number 7]] = Except.ok () ∧
    ([Statement.Print [Expression.Number 1, Expression.Number 2,
        Expression.Number 3, Expression.Number 4, Expression.Number 5,
        Expression.Number 6, Expression.Number 7]] : List Statement) ≠ [] ∧
    compile_with_details (PestResult.ok [Statement.Print [Expression.Number 1,
        Expression.Number 2, Expression.Number 3, Expression.Number 4,
        Expression.Number 5, Expression.Number 6, Expression.Number 7]])
      = Except.ok ⟨generate_program [Statement.Print [Expression.Number 1,
          Expression.Number 2, Expression.Number 3, Expression.Number 4,
          Expression.Number 5, Expression.Number 6, Expression.Number 7]],
        warnings_from [Statement.Print [Expression.Number 1, Expression.Number 2,
          Expression.Number 3, Expression.Number 4, Expression.Number 5,
          Expression.Number 6, Expression.Number 7]] 0, 1⟩ := by
  refine ⟨rfl, by simp, ?_⟩
  exact (top_level_warnings_advisory
    [Statement.Print [Expression.Number 1, Expression.Number 2, Expression.Number 3,
      Expression.Number 4, Expression.Number 5, Expression.Number 6,
      Expression.Number 7]] rfl (by simp)).1

/-- C8: code generation is total and never fails: generate_program is a function into
strings accepted by the termination checker, so every program, with arbitrarily
nested control flow, is mapped to a generated string and no error outcome exists. -/
theorem generation_total (statements : List Statement) :
    ∃ s : String, generate_program statements = s :=
  ⟨generate_program statements, rfl⟩

/-- C9: validating a For statement runs its init against the enclosing context itself,
so the loop variable stays declared after the For: a later top-level reference to it
passes validation, a later same-name const declaration fails with DuplicateVariable
carrying the For's ordinal, while a declaration inside a While body, validated against
an independent copy, leaves the outer context unchanged. -/
theorem for_init_extends_outer_scope (n : String) (h : n ≠ "") :
    validate_program [Statement.For (Statement.Let n (Expression.Number 0))
        (Expression.BinaryOp (Expression.Identifier n) "<" (Expression.Number 3))
        (Expression.BinaryOp (Expression.Identifier n) "+" (Expression.Number 1))
        [Statement.Print [Expression.Identifier n]],
      Statement.Print [Expression.Identifier n]] = Except.ok () ∧
    validate_program [Statement.For (Statement.Let n (Expression.Number 0))
        (Expression.BinaryOp (Expression.Identifier n) "<" (Expression.Number 3))
        (Expression.BinaryOp (Expression.Identifier n) "+" (Expression.Number 1))
        [Statement.Print [Expression.Identifier n]],
      Statement.Const n (Expression.Number 5)]
      = Except.error (ValidationError.DuplicateVariable n 1) ∧
    validate_program [Statement.While (Expression.Number 1)
        [Statement.Let n (Expression.Number 0)],
      Statement.Print [Expression.Identifier n]]
      = Except.error (ValidationError.UndefinedVariable n 2) := by
  refine ⟨?_, ?_, ?_⟩ <;>
    simp [validate_program, validate_program_go, validate_statement, validate_block,
      validate_expressions, validate_expression, ValidationContext.declare_variable,
      ValidationContext.is_variable_declared, ValidationContext.new,
      setMem, setInsert, mapGet, mapInsert, h]

theorem for_init_extends_outer_scope_witness :
    (("i" : String) ≠ "") ∧
    validate_program [Statement.For (Statement.Let "i" (Expression.Number 0))
        (Expression.BinaryOp (Expression.Identifier "i") "<" (Expression.Number 3))
        (Expression.BinaryOp (Expression.Identifier "i") "+" (Expression.Number 1))
        [Statement.Print [Expression.Identifier "i"]],
      Statement.Print [Expression.Identifier "i"]] = Except.ok () ∧
    validate_program [Statement.For (Statement.Let "i" (Expression.Number 0))
        (Expression.BinaryOp (Expression.Identifier "i") "<" (Expression.Number 3))
        (Expression.BinaryOp (Expression.Identifier "i") "+" (Expression.Number 1))
        [Statement.Print [Expression.Identifier "i"]],
      Statement.Const "i" (Expression.Number 5)]
      = Except.error (ValidationError.DuplicateVariable "i" 1) ∧
    validate_program [Statement.While (Expression.Number 1)
        [Statement.Let "i" (Expression.Number 0)],
      Statement.Print [Expression.Identifier "i"]]
      = Except.error (ValidationError.UndefinedVariable "i" 2) :=
  ⟨by decide, for_init_extends_outer_scope "i" (by decide)⟩

/-- C10: when a redeclaration is rejected, the DuplicateVariable error carries the
ordinal of the original declaration of the name, not the ordinal of the offending
redeclaration: in every context whose maps record name n as declared at ordinal k with
kind t, a redeclaration of n at any other ordinal with a kind that is not the
const-to-let widening is rejected as DuplicateVariable n k. -/
theorem duplicate_reports_original_ordinal (ctx : ValidationContext) (n : String)
    (k line : Nat) (t t1 : DeclarationType)
    (h1 : setMem ctx.declared_vars n = true)
    (h2 : mapGet ctx.var_declarations n = some k)
    (h3 : mapGet ctx.var_types n = some t)
    (h4 : ¬(t = DeclarationType.Const ∧ t1 = DeclarationType.Let)) :
    ctx.declare_variable n line t1
      = Except.error (ValidationError.DuplicateVariable n k) := by
  simp [ValidationContext.declare_variable, h1, h2, h3, h4]

theorem duplicate_reports_original_ordinal_witness :
    setMem (["x"] : List String) "x" = true ∧
    mapGet [("x", 3)] "x" = some 3 ∧
    mapGet [("x", DeclarationType.Let)] "x" = some DeclarationType.Let ∧
    ¬(DeclarationType.Let = DeclarationType.Const ∧
        DeclarationType.Const = DeclarationType.Let) ∧
    ValidationContext.declare_variable
        ⟨["x"], [("x", 3)], [("x", DeclarationType.Let)]⟩ "x" 7 DeclarationType.Const
      = Except.error (ValidationError.DuplicateVariable "x" 3) :=
  ⟨rfl, rfl, rfl, by decide,
    duplicate_reports_original_ordinal
      ⟨["x"], [("x", 3)], [("x", DeclarationType.Let)]⟩ "x" 3 7
      DeclarationType.Let DeclarationType.Const rfl rfl rfl (by decide)⟩

end TfiLang
